import Mathlib

/-!
Verification of the autonomous build-agent engine of
`truefoundry/autodeploy` (files `agents/base.py`, `tools/base.py`,
`tools/ask.py`), against its natural-language specification.

The shallow embedding below mirrors the Python source:

* pydantic model instances (events, requests, responses, parse errors)
  become `PyObj`: a class tag (the class's qualified name) plus the
  `model_dump` field data, a JSON-like `Val`;
* a Python generator `run(request)` that yields events, receives values
  via `send`, and returns a terminal response via `StopIteration`
  becomes a finite interaction tree `Exec` whose `vis` nodes carry the
  yielded event and a continuation over the sent value;
* the external chat-completion endpoint (`llm`) and the pydantic
  argument validators (`tool.Request(**json.loads(...))`,
  `self.Response(**json.loads(...))`) are parameters of the `Agent`
  record: pure functions supplied by each instantiation;
* `Agent.run`'s outer `for _ in range(self.max_iter)` loop and its
  inner `for tool_call in r.tool_calls` loop become the structurally
  recursive `runLoop` (on the remaining iteration budget) and
  `runCalls` (on the remaining tool calls of the current reply, in
  continuation-passing style: `cont` is "proceed to the next outer
  iteration with the accumulated transcript").
-/

set_option linter.unusedVariables false

namespace Autodeploy

/-- JSON-like values: the field data of a pydantic `BaseModel` instance,
as produced by `model_dump`.  Object fields keep their declaration
order, matching Python dict order. -/
inductive Val where
  | null
  | bool (b : Bool)
  | num (n : Int)
  | str (s : String)
  | arr (elems : List Val)
  | obj (fields : List (String × Val))

mutual

/-- Embedding of `json.dumps(model_dump(x), ...)`: a JSON serialization
of a `Val`.  (The `indent=1` whitespace layout of the Python call in
`format_tool_response`, and string escaping, are not reproduced
character-for-character; no claim depends on the whitespace of the
encoding, only on the tool-result content being the JSON encoding of
the response object.) -/
def jsonDumps : Val → String
  | Val.null => "null"
  | Val.bool true => "true"
  | Val.bool false => "false"
  | Val.num n => toString n
  | Val.str s => "\"" ++ s ++ "\""
  | Val.arr elems => "[" ++ jsonDumpsList elems ++ "]"
  | Val.obj fields => "\x7b" ++ jsonDumpsFields fields ++ "\x7d"

/-- Serializes the comma-separated elements of a JSON array. -/
def jsonDumpsList : List Val → String
  | [] => ""
  | [v] => jsonDumps v
  | v :: vs => jsonDumps v ++ ", " ++ jsonDumpsList vs

/-- Serializes the comma-separated fields of a JSON object. -/
def jsonDumpsFields : List (String × Val) → String
  | [] => ""
  | [(k, v)] => "\"" ++ k ++ "\": " ++ jsonDumps v
  | (k, v) :: fs => "\"" ++ k ++ "\": " ++ jsonDumps v ++ ", " ++ jsonDumpsFields fs

end

/-- A pydantic model instance: its class (tagged by qualified name, so
that e.g. `Ask.Response` and `AskQuestion` are distinct even with equal
field data) together with its `model_dump` data.  `Event`,
`RequestEvent` and `ResponseEvent` instances are all represented this
way. -/
structure PyObj where
  cls : String
  data : Val

/-- The exceptions `Agent.run` can raise out of the loop:
`tool_map[tool_call.function.name]` raising `KeyError` (base.py line
152), and the bare `raise Exception()` after the loop (line 181). -/
inductive PyErr where
  | keyError (name : String)
  | exception
deriving DecidableEq

/-- A finite interaction tree: the embedding of a Python generator
execution as produced by `Tool.run` / `Agent.run`.  `vis e k` is a
`yield e` suspension whose continuation receives the value passed to
the generator's `send` (`Val.null` models `None`); `ret r` is a
`return r` (surfacing as `StopIteration(r)`); `raise e` is an
uncaught exception. -/
inductive Exec where
  | ret (r : PyObj)
  | raise (e : PyErr)
  | vis (e : PyObj) (k : Val → Exec)

/-- Embedding of the forwarding loop of `Agent.run` (base.py lines
167-175): pump the dispatched generator with `tool_run.send(inp)`,
re-yield each of its events to the outer caller and feed the outer
caller's reply back in unchanged, until `StopIteration` carries the
terminal response, which is handed to the rest of the loop body
(`k`).  An exception escaping the inner execution propagates. -/
def relay : Exec → (PyObj → Exec) → Exec
  | Exec.ret r, k => k r
  | Exec.raise e, _ => Exec.raise e
  | Exec.vis e kin, k => Exec.vis e (fun inp => relay (kin inp) k)

/-- How one complete pumping of an `Exec` ends: a terminal response
(`StopIteration` value) or an uncaught exception. -/
inductive Outcome where
  | ok (r : PyObj)
  | err (e : PyErr)

/-- Runs an `Exec` against a driver: the driver answers each yielded
event (the CLI driver calls `event.render(console)` and sends back the
result).  Returns the ordered list of yielded events and the final
outcome. -/
def trace : Exec → (PyObj → Val) → List PyObj × Outcome
  | Exec.ret r, _ => ([], Outcome.ok r)
  | Exec.raise e, _ => ([], Outcome.err e)
  | Exec.vis e k, drv =>
    let t := trace (k (drv e)) drv
    (e :: t.1, t.2)

/-- One tool call's `function` payload in an assistant reply:
`tool_call.function.name` and `tool_call.function.arguments` (the
latter a JSON-encoded string, parsed only by the pydantic validators
below). -/
structure ToolFunction where
  name : String
  arguments : String
deriving DecidableEq

/-- One tool call of an assistant reply: `tool_call.id` plus its
`function` payload. -/
structure ToolCall where
  id : String
  function : ToolFunction
deriving DecidableEq

/-- An assistant reply (`ChatCompletionMessage`): optional text content
and the list of requested tool calls.  Python's falsiness test
`if not r.tool_calls` treats both `None` and `[]` as "no tool calls",
so both are modelled by the empty list. -/
structure Reply where
  content : Option String
  tool_calls : List ToolCall
deriving DecidableEq

/-- A transcript message.  `system`, `user` and `tool` carry the
payloads of the corresponding `ChatCompletion*MessageParam` dicts;
`assistant` is the raw model reply appended by `messages.append(r)`. -/
inductive Msg where
  | system (content : String)
  | user (content : String)
  | assistant (r : Reply)
  | tool (content : String) (tool_call_id : String)
deriving DecidableEq

/-- The `role` tag of a transcript message. -/
def Msg.role : Msg → String
  | Msg.system _ => "system"
  | Msg.user _ => "user"
  | Msg.assistant _ => "assistant"
  | Msg.tool _ _ => "tool"

/-- The textual content of a transcript message (an assistant reply's
content may be absent). -/
def Msg.content : Msg → Option String
  | Msg.system c => some c
  | Msg.user c => some c
  | Msg.assistant r => r.content
  | Msg.tool c _ => some c

/-- The `tool_call_id` of a transcript message; only tool-result
messages carry one. -/
def Msg.tool_call_id : Msg → Option String
  | Msg.tool _ id => some id
  | _ => none

/-- Embedding of `format_tool_response` (base.py lines 49-56): a
tool-result message with role `tool`, content the JSON-encoded
response, and the originating call id. -/
def format_tool_response (response : PyObj) (tool_call_id : String) : Msg :=
  Msg.tool (jsonDumps response.data) tool_call_id

/-- Embedding of `format_user_response` (base.py lines 59-63). -/
def format_user_response (response : String) : Msg :=
  Msg.user response

/-- Embedding of the `ToolParamParseError` pydantic model (base.py
lines 94-95), as the object `ToolParamParseError(error=str(ex))`. -/
def ToolParamParseError (error : String) : PyObj :=
  ⟨"ToolParamParseError", Val.obj [("error", Val.str error)]⟩

/-- A registered tool (`tools/base.py` `Tool` protocol), as seen by the
dispatching loop: its class name (`tool.__class__.__name__`, the
dispatch name), whether it is an `Agent` (`isinstance(tool, Agent)`),
its `Request` class name, the pydantic validator
`tool.Request(**json.loads(arguments))` (an `Except` capturing
`JSONDecodeError`/`ValidationError` as `error`), and its suspendable
execution `run`. -/
structure Tool where
  name : String
  isAgent : Bool
  requestCls : String
  parseRequest : String → Except String Val
  run : PyObj → Exec

/-- An agent (base.py `Agent`): system prompt, owned tools, iteration
bound, its own `Response` class name and validator
`self.Response(**json.loads(arguments))`, and the external
chat-completion oracle `llm` (closed over `openai_client`, `model` and
the tool descriptions; it consumes the current transcript and produces
one assistant reply). -/
structure Agent where
  system_prompt : String
  tools : List Tool
  max_iter : Nat
  responseCls : String
  parseResponse : String → Except String Val
  llm : List Msg → Reply

/-- Embedding of the dispatch registry (base.py lines 114-116):
`tool_map[tool.__class__.__name__] = tool` in list order, so a later
tool with the same name overwrites an earlier one; lookup of an
unregistered name yields `none` (Python raises `KeyError`). -/
def toolMap (tools : List Tool) (name : String) : Option Tool :=
  tools.foldl (fun acc t => if t.name = name then some t else acc) none

/-- The synthetic user message appended when a reply names no tool
calls (base.py lines 128-132). -/
def mustRespondMessage : String :=
  "You must respond with a tool call. Use the Ask tool to ask user."

/-- Embedding of the inner `for tool_call in r.tool_calls` loop of
`Agent.run` (base.py lines 135-180), one tool call at a time; `cont`
is the rest of the outer loop, entered with the accumulated transcript
when all tool calls of the current reply are processed.

Per tool call: a call named `Response` parses via `parseResponse` —
on failure a `ToolParamParseError` tool-result is appended and the
loop continues with the next call; on success the response is yielded
and returned, ending the whole run.  Any other name resolves through
`toolMap` (`KeyError` if absent), parses via `parseRequest` (failure
recoverable, as above); on success the parsed request is yielded, the
tool's execution is relayed, its terminal response appended as a
tool-result, and — only when the tool is not itself an `Agent` — the
response is additionally yielded. -/
def runCalls (A : Agent) (cont : List Msg → Exec) :
    List Msg → List ToolCall → Exec
  | messages, [] => cont messages
  | messages, tool_call :: rest =>
    if tool_call.function.name = "Response" then
      match A.parseResponse tool_call.function.arguments with
      | Except.error ex =>
        runCalls A cont
          (messages ++ [format_tool_response (ToolParamParseError ex) tool_call.id])
          rest
      | Except.ok d =>
        let response : PyObj := ⟨A.responseCls, d⟩
        Exec.vis response (fun _ => Exec.ret response)
    else
      match toolMap A.tools tool_call.function.name with
      | none => Exec.raise (PyErr.keyError tool_call.function.name)
      | some tool =>
        match tool.parseRequest tool_call.function.arguments with
        | Except.error ex =>
          runCalls A cont
            (messages ++ [format_tool_response (ToolParamParseError ex) tool_call.id])
            rest
        | Except.ok d =>
          let request : PyObj := ⟨tool.requestCls, d⟩
          Exec.vis request (fun _ =>
            relay (tool.run request) (fun response =>
              let messages := messages ++ [format_tool_response response tool_call.id]
              if tool.isAgent then
                runCalls A cont messages rest
              else
                Exec.vis response (fun _ => runCalls A cont messages rest)))

/-- Embedding of the outer `for _ in range(self.max_iter)` loop of
`Agent.run` (base.py lines 117-181), on the remaining iteration
budget.  A fresh iteration calls the model on the current transcript
and appends the reply; a reply without tool calls appends the
synthetic must-respond user message and re-enters the loop; otherwise
the reply's tool calls are processed with the next iteration as
continuation.  An exhausted budget is `raise Exception()`. -/
def runLoop (A : Agent) : Nat → List Msg → Exec
  | 0, _ => Exec.raise PyErr.exception
  | fuel + 1, messages =>
    let r := A.llm messages
    let messages := messages ++ [Msg.assistant r]
    if r.tool_calls.isEmpty then
      runLoop A fuel (messages ++ [format_user_response mustRespondMessage])
    else
      runCalls A (runLoop A fuel) messages r.tool_calls

/-- The transcript seeded by `Agent.run` (base.py lines 107-112): one
system message from the directive plus the serialized request. -/
def initMessages (A : Agent) (request : PyObj) : List Msg :=
  [Msg.system (A.system_prompt ++ "\nrequest:\n" ++ jsonDumps request.data)]

/-- Embedding of `Agent.run` (base.py lines 106-181). -/
def Agent.run (A : Agent) (request : PyObj) : Exec :=
  runLoop A A.max_iter (initMessages A request)

/-- Embedding of `Ask.run` (tools/ask.py lines 31-33): yield one
`AskQuestion` event built from the request's fields
(`AskQuestion(**model_dump(request))`), then return
`Ask.Response(response=...)` carrying exactly the value the driver
sent back for that event. -/
def Ask.run (request : PyObj) : Exec :=
  Exec.vis ⟨"AskQuestion", request.data⟩
    (fun response => Exec.ret ⟨"Ask.Response", Val.obj [("response", response)]⟩)

/-- Counts the model calls (`llm(...)`, base.py line 118) made while
processing the current reply's remaining tool calls and then
continuing, under a fixed driver; `contCount` counts the calls of the
rest of the loop.  This mirrors `runCalls` case for case: a parsed
`Response` ends the run with no further model calls, a `KeyError` or
an exception escaping a dispatched tool aborts with no further model
calls, and recoverable branches continue. -/
def callsLLMCount (A : Agent) (drv : PyObj → Val) (contCount : List Msg → Nat) :
    List Msg → List ToolCall → Nat
  | messages, [] => contCount messages
  | messages, tool_call :: rest =>
    if tool_call.function.name = "Response" then
      match A.parseResponse tool_call.function.arguments with
      | Except.error ex =>
        callsLLMCount A drv contCount
          (messages ++ [format_tool_response (ToolParamParseError ex) tool_call.id])
          rest
      | Except.ok _ => 0
    else
      match toolMap A.tools tool_call.function.name with
      | none => 0
      | some tool =>
        match tool.parseRequest tool_call.function.arguments with
        | Except.error ex =>
          callsLLMCount A drv contCount
            (messages ++ [format_tool_response (ToolParamParseError ex) tool_call.id])
            rest
        | Except.ok d =>
          match trace (tool.run ⟨tool.requestCls, d⟩) drv with
          | (_, Outcome.ok response) =>
            callsLLMCount A drv contCount
              (messages ++ [format_tool_response response tool_call.id]) rest
          | (_, Outcome.err _) => 0

/-- Counts the model calls made by the outer loop with the given
remaining iteration budget, under a fixed driver: one per iteration
entered, mirroring `runLoop` case for case. -/
def loopLLMCount (A : Agent) (drv : PyObj → Val) : Nat → List Msg → Nat
  | 0, _ => 0
  | fuel + 1, messages =>
    let r := A.llm messages
    let messages := messages ++ [Msg.assistant r]
    if r.tool_calls.isEmpty then
      1 + loopLLMCount A drv fuel (messages ++ [format_user_response mustRespondMessage])
    else
      1 + callsLLMCount A drv (loopLLMCount A drv fuel) messages r.tool_calls

/-- A value occurs exactly once in a list. -/
def ExactlyOnce (x : PyObj) (l : List PyObj) : Prop :=
  ∃ pre post, l = pre ++ x :: post ∧ x ∉ pre ∧ x ∉ post

/-- The response `r` is the successful parse of the arguments of a
tool call named `Response` occurring in some reply the model oracle
can produce. -/
def ParsedResponseFromReply (A : Agent) (r : PyObj) : Prop :=
  ∃ tc d, (∃ ms, tc ∈ (A.llm ms).tool_calls) ∧ tc.function.name = "Response" ∧
    A.parseResponse tc.function.arguments = Except.ok d ∧ r = ⟨A.responseCls, d⟩

/-! ### Concrete fixtures

Closed instantiations of the `Agent` record (with concrete model
oracles and validators, which in the source are the external
chat-completion endpoint and pydantic) used to evaluate the dispatch
loop on explicit runs. -/

/-- A driver that answers every yielded event with `None`. -/
def drvNull : PyObj → Val := fun _ => Val.null

/-- A generic request object used to start fixture runs. -/
def reqW : PyObj := ⟨"Request", Val.null⟩

/-- A leaf tool in the style of the spec's `Echo` scenario (§8.6): its
execution yields no events and returns a response echoing the parsed
request data. -/
def echoTool : Tool where
  name := "Echo"
  isAgent := false
  requestCls := "Echo.Request"
  parseRequest := fun s =>
    if s = "argsE" then Except.ok (Val.obj [("text", Val.str "hi")])
    else Except.error "bad args"
  run := fun req => Exec.ret ⟨"Echo.Response", req.data⟩

/-- An agent owning only `echoTool`: its first reply dispatches `Echo`,
its second reply issues a parsable `Response` call. -/
def echoAgent : Agent where
  system_prompt := "sp"
  tools := [echoTool]
  max_iter := 2
  responseCls := "Response"
  parseResponse := fun s =>
    if s = "ok" then Except.ok (Val.obj []) else Except.error "bad response"
  llm := fun ms =>
    if ms.length ≤ 1 then ⟨none, [⟨"c1", ⟨"Echo", "argsE"⟩⟩]⟩
    else ⟨none, [⟨"c2", ⟨"Response", "ok"⟩⟩]⟩

/-- An agent with `max_iter = 1` whose first reply names zero tool
calls and whose second reply (which the budget never reaches) would be
a parsable `Response` call. -/
def emptyReplyAgent : Agent where
  system_prompt := "sp"
  tools := []
  max_iter := 1
  responseCls := "Response"
  parseResponse := fun s =>
    if s = "ok" then Except.ok Val.null else Except.error "bad response"
  llm := fun ms =>
    if ms.length ≤ 1 then ⟨none, []⟩
    else ⟨none, [⟨"c2", ⟨"Response", "ok"⟩⟩]⟩

/-- An agent whose model replies never contain any tool call at all
(so in particular never a parsable `Response` call). -/
def noResponseAgent : Agent where
  system_prompt := "sp"
  tools := []
  max_iter := 1
  responseCls := "Response"
  parseResponse := fun _ => Except.error "bad response"
  llm := fun _ => ⟨none, []⟩

/-- An informational event yielded by the nested-agent fixture. -/
def eB1 : PyObj := ⟨"Message", Val.str "b1"⟩

/-- The terminal response of the nested-agent fixture. -/
def rB : PyObj := ⟨"B.Response", Val.str "done"⟩

/-- A dispatch-table entry that is itself an agent
(`isinstance(tool, Agent)` holds): following the agent discipline its
execution yields an informational event, then yields its own terminal
response as its final event, then returns that response. -/
def subAgentTool : Tool where
  name := "B"
  isAgent := true
  requestCls := "B.Request"
  parseRequest := fun s =>
    if s = "argsB" then Except.ok Val.null else Except.error "bad args"
  run := fun _ => Exec.vis eB1 (fun _ => Exec.vis rB (fun _ => Exec.ret rB))

/-- An agent owning the nested-agent fixture `subAgentTool`. -/
def outerAgent : Agent where
  system_prompt := "sp"
  tools := [subAgentTool]
  max_iter := 2
  responseCls := "Response"
  parseResponse := fun s =>
    if s = "ok" then Except.ok (Val.obj []) else Except.error "bad response"
  llm := fun ms =>
    if ms.length ≤ 1 then ⟨none, [⟨"cb", ⟨"B", "argsB"⟩⟩]⟩
    else ⟨none, [⟨"c2", ⟨"Response", "ok"⟩⟩]⟩

/-! ### Helper lemmas -/

/-- The relay is a transparent, order-preserving, non-buffering
forwarder: running a relayed execution against a driver first produces
exactly the inner execution's events (each answered by the driver
directly, i.e. resumption values pass through unchanged), and then, if
the inner execution returned `r`, continues as `k r`; an inner
exception propagates. -/
theorem trace_relay (t : Exec) (k : PyObj → Exec) (drv : PyObj → Val) :
    trace (relay t k) drv =
      match trace t drv with
      | (evs, Outcome.ok r) => (evs ++ (trace (k r) drv).1, (trace (k r) drv).2)
      | (evs, Outcome.err e) => (evs, Outcome.err e) := by
  induction t with
  | ret r => simp [relay, trace]
  | raise e => simp [relay, trace]
  | vis e kin ih =>
    simp only [relay, trace]
    rw [ih (drv e)]
    rcases h : trace (kin (drv e)) drv with ⟨evs, out⟩
    cases out <;> simp

/-- If the right part of an append has a known last element, so does
the whole. -/
theorem getLast?_append_right {l1 l2 : List PyObj} {x : PyObj}
    (h : l2.getLast? = some x) : (l1 ++ l2).getLast? = some x := by
  rw [← Option.mem_def] at h ⊢
  exact List.mem_getLast?_append_of_mem_getLast? h

/-- One dispatch step, observationally: when a tool call resolves to a
registered tool, its arguments parse to `d`, and the dispatched
execution completes with events `evs` and terminal response `r`, the
step yields the parsed request, then the inner events, then — exactly
when the tool is not itself an agent — the response, and continues
with the tool-result message appended to the transcript. -/
theorem runCalls_dispatch (A : Agent) (cont : List Msg → Exec) (ms : List Msg)
    (tc : ToolCall) (rest : List ToolCall) (tool : Tool) (d : Val)
    (drv : PyObj → Val) (evs : List PyObj) (r : PyObj)
    (h1 : ¬tc.function.name = "Response")
    (h2 : toolMap A.tools tc.function.name = some tool)
    (h3 : tool.parseRequest tc.function.arguments = Except.ok d)
    (h4 : trace (tool.run ⟨tool.requestCls, d⟩) drv = (evs, Outcome.ok r)) :
    trace (runCalls A cont ms (tc :: rest)) drv =
      (⟨tool.requestCls, d⟩ ::
        (evs ++ (if tool.isAgent then [] else [r]) ++
          (trace (runCalls A cont (ms ++ [format_tool_response r tc.id]) rest) drv).1),
       (trace (runCalls A cont (ms ++ [format_tool_response r tc.id]) rest) drv).2) := by
  simp only [runCalls, if_neg h1, h2, h3]
  simp only [trace]
  rw [trace_relay, h4]
  cases hA : tool.isAgent <;> simp [trace]

/-- Completion analysis for the inner loop: whenever processing the
remaining tool calls ends by returning a response `r` (rather than
raising), the last yielded event is `r` itself — provided the
continuation (the rest of the outer loop) has the same property. -/
theorem runCalls_ok_getLast (A : Agent) (drv : PyObj → Val) (cont : List Msg → Exec)
    (hc : ∀ ms evs r, trace (cont ms) drv = (evs, Outcome.ok r) → evs.getLast? = some r) :
    ∀ calls ms evs r, trace (runCalls A cont ms calls) drv = (evs, Outcome.ok r) →
      evs.getLast? = some r := by
  intro calls
  induction calls with
  | nil =>
    intro ms evs r h
    exact hc ms evs r (by simpa [runCalls] using h)
  | cons tc rest ih =>
    intro ms evs r h
    simp only [runCalls] at h
    split at h
    · -- tool call named "Response"
      split at h
      · exact ih _ _ _ h
      · simp [trace] at h
        obtain ⟨h1, h2⟩ := h
        subst h1
        simpa using h2
    · -- registered tool dispatch
      split at h
      · simp [trace] at h
      · split at h
        · exact ih _ _ _ h
        · simp only [trace] at h
          rw [trace_relay] at h
          rcases hin : trace _ drv with ⟨ievs, out⟩
          rw [hin] at h
          cases out with
          | err e => simp at h
          | ok ir =>
            simp only at h
            split at h
            · rcases hcont : trace (runCalls A cont _ rest) drv with ⟨cevs, cout⟩
              rw [hcont] at h
              rw [Prod.mk.injEq] at h
              obtain ⟨he, ho⟩ := h
              subst he
              have := ih _ _ _ (by rw [hcont, ← ho])
              rw [← List.cons_append]
              exact getLast?_append_right this
            · simp only [trace] at h
              rcases hcont : trace (runCalls A cont _ rest) drv with ⟨cevs, cout⟩
              rw [hcont] at h
              rw [Prod.mk.injEq] at h
              obtain ⟨he, ho⟩ := h
              subst he
              have := ih _ _ _ (by rw [hcont, ← ho])
              rw [← List.cons_append]
              exact getLast?_append_right (@getLast?_append_right [ir] cevs r this)

/-- Completion analysis for the outer loop: whenever an agent's run
ends by returning a response `r`, the last yielded event is `r`
itself (the agent yields its own response as its final event before
returning it). -/
theorem runLoop_ok_getLast (A : Agent) (drv : PyObj → Val) :
    ∀ fuel ms evs r, trace (runLoop A fuel ms) drv = (evs, Outcome.ok r) →
      evs.getLast? = some r := by
  intro fuel
  induction fuel with
  | zero => intro ms evs r h; simp [runLoop, trace] at h
  | succ fuel ih =>
    intro ms evs r h
    simp only [runLoop] at h
    split at h
    · exact ih _ _ _ h
    · exact runCalls_ok_getLast A drv _ (fun ms evs r hh => ih ms evs r hh) _ _ _ _ h

/-- Completion analysis: a normal return from the inner loop is always
the successful parse of a `Response`-named tool call coming from a
model reply — provided the pending calls come from a model reply and
the continuation only returns such parses. -/
theorem runCalls_ok_parsed (A : Agent) (drv : PyObj → Val) (cont : List Msg → Exec)
    (hc : ∀ ms evs r, trace (cont ms) drv = (evs, Outcome.ok r) →
      ParsedResponseFromReply A r) :
    ∀ calls ms evs r, (∀ tc ∈ calls, ∃ ms', tc ∈ (A.llm ms').tool_calls) →
      trace (runCalls A cont ms calls) drv = (evs, Outcome.ok r) →
      ParsedResponseFromReply A r := by
  intro calls
  induction calls with
  | nil =>
    intro ms evs r hcalls h
    exact hc ms evs r (by simpa [runCalls] using h)
  | cons tc rest ih =>
    intro ms evs r hcalls h
    have hrest : ∀ tc ∈ rest, ∃ ms', tc ∈ (A.llm ms').tool_calls :=
      fun tc htc => hcalls tc (List.mem_cons_of_mem _ htc)
    simp only [runCalls] at h
    by_cases hname : tc.function.name = "Response"
    · rw [if_pos hname] at h
      cases hp : A.parseResponse tc.function.arguments with
      | error ex => rw [hp] at h; exact ih _ _ _ hrest h
      | ok d =>
        rw [hp] at h
        simp [trace] at h
        exact ⟨tc, d, hcalls tc (List.mem_cons_self _ _), hname, hp, h.2.symm⟩
    · rw [if_neg hname] at h
      cases hmap : toolMap A.tools tc.function.name with
      | none => rw [hmap] at h; simp [trace] at h
      | some tool =>
        rw [hmap] at h
        simp only at h
        cases hp : tool.parseRequest tc.function.arguments with
        | error ex => rw [hp] at h; exact ih _ _ _ hrest h
        | ok d =>
          rw [hp] at h
          simp only [trace] at h
          rw [trace_relay] at h
          rcases hin : trace (tool.run ⟨tool.requestCls, d⟩) drv with ⟨ievs, out⟩
          rw [hin] at h
          cases out with
          | err e => simp at h
          | ok ir =>
            simp only at h
            by_cases hA : tool.isAgent = true
            · rw [if_pos hA] at h
              rcases hcont :
                trace (runCalls A cont (ms ++ [format_tool_response ir tc.id]) rest) drv
                with ⟨cevs, cout⟩
              rw [hcont] at h
              rw [Prod.mk.injEq] at h
              have ho : cout = Outcome.ok r := h.2
              exact ih _ _ _ hrest (by rw [hcont, ho])
            · rw [if_neg hA] at h
              simp only [trace] at h
              rcases hcont :
                trace (runCalls A cont (ms ++ [format_tool_response ir tc.id]) rest) drv
                with ⟨cevs, cout⟩
              rw [hcont] at h
              rw [Prod.mk.injEq] at h
              have ho : cout = Outcome.ok r := h.2
              exact ih _ _ _ hrest (by rw [hcont, ho])

/-- Completion analysis for the outer loop: an agent's run returns
normally only with the successful parse of a `Response`-named tool
call occurring in one of the model oracle's replies. -/
theorem runLoop_ok_parsed (A : Agent) (drv : PyObj → Val) :
    ∀ fuel ms evs r, trace (runLoop A fuel ms) drv = (evs, Outcome.ok r) →
      ParsedResponseFromReply A r := by
  intro fuel
  induction fuel with
  | zero => intro ms evs r h; simp [runLoop, trace] at h
  | succ fuel ih =>
    intro ms evs r h
    simp only [runLoop] at h
    split at h
    · exact ih _ _ _ h
    · exact runCalls_ok_parsed A drv _ (fun ms evs r hh => ih ms evs r hh)
        _ _ _ _ (fun tc htc => ⟨_, htc⟩) h

/-- The inner loop makes at most `B` further model calls when the rest
of the outer loop makes at most `B`. -/
theorem callsLLMCount_le (A : Agent) (drv : PyObj → Val)
    (contCount : List Msg → Nat) (B : Nat) (hc : ∀ ms, contCount ms ≤ B) :
    ∀ calls ms, callsLLMCount A drv contCount ms calls ≤ B := by
  intro calls
  induction calls with
  | nil => intro ms; simpa [callsLLMCount] using hc ms
  | cons tc rest ih =>
    intro ms
    simp only [callsLLMCount]
    split
    · split
      · exact ih _
      · exact Nat.zero_le B
    · split
      · exact Nat.zero_le B
      · split
        · exact ih _
        · split
          · exact ih _
          · exact Nat.zero_le B

/-- The outer loop makes at most as many model calls as its remaining
iteration budget: one per `for` iteration entered, including
iterations that only handle an empty (tool-call-free) reply. -/
theorem loopLLMCount_le (A : Agent) (drv : PyObj → Val) :
    ∀ fuel ms, loopLLMCount A drv fuel ms ≤ fuel := by
  intro fuel
  induction fuel with
  | zero => intro ms; simp [loopLLMCount]
  | succ fuel ih =>
    intro ms
    simp only [loopLLMCount]
    split
    · rw [Nat.add_comm 1]
      exact Nat.succ_le_succ (ih _)
    · rw [Nat.add_comm 1]
      exact Nat.succ_le_succ (callsLLMCount_le A drv _ fuel ih _ _)

/-! ### Claims -/

/-- C3: a tool call named `Response` whose arguments parse successfully
terminates the whole run: the parsed response is yielded as the final
event and then returned as the run's result; no tool call occurring
after it in the same reply (`post`) is dispatched or recorded, and the
rest of the loop (`cont`) is never entered — the result is independent
of both. -/
theorem C3_response_terminates (A : Agent) (cont : List Msg → Exec) (ms : List Msg)
    (tc : ToolCall) (post : List ToolCall) (d : Val) (drv : PyObj → Val)
    (hname : tc.function.name = "Response")
    (hp : A.parseResponse tc.function.arguments = Except.ok d) :
    runCalls A cont ms (tc :: post) =
      Exec.vis ⟨A.responseCls, d⟩ (fun _ => Exec.ret ⟨A.responseCls, d⟩) ∧
    trace (runCalls A cont ms (tc :: post)) drv =
      ([⟨A.responseCls, d⟩], Outcome.ok ⟨A.responseCls, d⟩) := by
  constructor
  · simp [runCalls, if_pos hname, hp]
  · simp [runCalls, if_pos hname, hp, trace]

/-- C3 witness: in `echoAgent`, a parsable `Response` call followed by
a pending `Echo` call ends the run at once; the pending call is not
dispatched. -/
theorem C3_witness :
    runCalls echoAgent (runLoop echoAgent 1) (initMessages echoAgent reqW)
        [⟨"c2", ⟨"Response", "ok"⟩⟩, ⟨"cx", ⟨"Echo", "argsE"⟩⟩] =
      Exec.vis ⟨"Response", Val.obj []⟩ (fun _ => Exec.ret ⟨"Response", Val.obj []⟩) ∧
    trace (runCalls echoAgent (runLoop echoAgent 1) (initMessages echoAgent reqW)
        [⟨"c2", ⟨"Response", "ok"⟩⟩, ⟨"cx", ⟨"Echo", "argsE"⟩⟩]) drvNull =
      ([⟨"Response", Val.obj []⟩], Outcome.ok ⟨"Response", Val.obj []⟩) :=
  C3_response_terminates echoAgent (runLoop echoAgent 1) (initMessages echoAgent reqW)
    ⟨"c2", ⟨"Response", "ok"⟩⟩ [⟨"cx", ⟨"Echo", "argsE"⟩⟩] (Val.obj []) drvNull rfl rfl

/-- C5: a tool call (named `Response` or naming a registered tool)
whose arguments fail to parse/validate neither raises nor terminates
the run: processing continues with the remaining tool calls (and then
the next model round-trip), with exactly one extra transcript entry —
a `ToolParamParseError` recorded as a tool-result message keyed to the
failing call's id. -/
theorem C5_parse_error_recoverable (A : Agent) (cont : List Msg → Exec) (ms : List Msg)
    (tc : ToolCall) (rest : List ToolCall) (ex : String)
    (h : (tc.function.name = "Response" ∧
            A.parseResponse tc.function.arguments = Except.error ex) ∨
         (¬tc.function.name = "Response" ∧ ∃ tool, toolMap A.tools tc.function.name = some tool ∧
            tool.parseRequest tc.function.arguments = Except.error ex)) :
    runCalls A cont ms (tc :: rest) =
      runCalls A cont (ms ++ [format_tool_response (ToolParamParseError ex) tc.id]) rest ∧
    (format_tool_response (ToolParamParseError ex) tc.id).role = "tool" ∧
    (format_tool_response (ToolParamParseError ex) tc.id).tool_call_id = some tc.id := by
  refine ⟨?_, rfl, rfl⟩
  rcases h with ⟨hname, hp⟩ | ⟨hname, tool, hmap, hp⟩
  · simp [runCalls, if_pos hname, hp]
  · simp [runCalls, if_neg hname, hmap, hp]

/-- C5 witness: in `echoAgent`, a `Response` call with unparsable
arguments just records a `ToolParamParseError` tool-result for call id
`c9` and moves on. -/
theorem C5_witness :
    runCalls echoAgent (runLoop echoAgent 1) (initMessages echoAgent reqW)
        [⟨"c9", ⟨"Response", "bad"⟩⟩] =
      runCalls echoAgent (runLoop echoAgent 1)
        (initMessages echoAgent reqW ++
          [format_tool_response (ToolParamParseError "bad response") "c9"]) [] ∧
    (format_tool_response (ToolParamParseError "bad response") "c9").role = "tool" ∧
    (format_tool_response (ToolParamParseError "bad response") "c9").tool_call_id =
      some "c9" :=
  C5_parse_error_recoverable echoAgent (runLoop echoAgent 1) (initMessages echoAgent reqW)
    ⟨"c9", ⟨"Response", "bad"⟩⟩ [] "bad response" (Or.inl ⟨rfl, rfl⟩)

/-- C6: a tool call whose name is neither the literal `Response` nor
registered in the agent's dispatch map raises (`KeyError`): the run
aborts with no event yielded, the call is not skipped, and no
recoverable error is recorded. -/
theorem C6_unknown_tool_fatal (A : Agent) (cont : List Msg → Exec) (ms : List Msg)
    (tc : ToolCall) (rest : List ToolCall) (drv : PyObj → Val)
    (hname : ¬tc.function.name = "Response")
    (hmap : toolMap A.tools tc.function.name = none) :
    runCalls A cont ms (tc :: rest) = Exec.raise (PyErr.keyError tc.function.name) ∧
    trace (runCalls A cont ms (tc :: rest)) drv =
      ([], Outcome.err (PyErr.keyError tc.function.name)) := by
  constructor <;> simp [runCalls, if_neg hname, hmap, trace]

/-- C6 witness: in `echoAgent` (which registers only `Echo`), a call
named `Nope` aborts the run with a `KeyError`. -/
theorem C6_witness :
    runCalls echoAgent (runLoop echoAgent 1) (initMessages echoAgent reqW)
        [⟨"c7", ⟨"Nope", "x"⟩⟩] = Exec.raise (PyErr.keyError "Nope") ∧
    trace (runCalls echoAgent (runLoop echoAgent 1) (initMessages echoAgent reqW)
        [⟨"c7", ⟨"Nope", "x"⟩⟩]) drvNull = ([], Outcome.err (PyErr.keyError "Nope")) :=
  C6_unknown_tool_fatal echoAgent (runLoop echoAgent 1) (initMessages echoAgent reqW)
    ⟨"c7", ⟨"Nope", "x"⟩⟩ [] drvNull (by decide) rfl

/-- C1 counterexample: `Echo` is a leaf tool (not an `Agent`) and its
own execution yields no events at all (first conjunct), yet its
terminal `Echo.Response` appears among the events yielded by the
dispatching agent's run (third conjunct, from the explicit full trace
in the second conjunct).  So the dispatching loop does yield a leaf
tool's response upward, contradicting the claim that a leaf tool's
response is recorded but not separately yielded (and that only a
nested agent's response is yielded by the loop: the full trace also
shows the terminal `Response` exactly once, not twice as the claim's
extra yield for agents would produce in the nested case). -/
theorem C1_counterexample :
    trace (echoTool.run ⟨"Echo.Request", Val.obj [("text", Val.str "hi")]⟩) drvNull =
      ([], Outcome.ok ⟨"Echo.Response", Val.obj [("text", Val.str "hi")]⟩) ∧
    trace (echoAgent.run reqW) drvNull =
      ([⟨"Echo.Request", Val.obj [("text", Val.str "hi")]⟩,
        ⟨"Echo.Response", Val.obj [("text", Val.str "hi")]⟩,
        ⟨"Response", Val.obj []⟩],
       Outcome.ok ⟨"Response", Val.obj []⟩) ∧
    ⟨"Echo.Response", Val.obj [("text", Val.str "hi")]⟩ ∈
      (trace (echoAgent.run reqW) drvNull).1 :=
  ⟨rfl, rfl, List.Mem.tail _ (List.Mem.head _)⟩

/-- C1 (amended): once a dispatched tool's execution completes with
terminal response `r`, the response is appended to the transcript as a
tool-result message for the originating call id (visible in the
transcript the continuation receives) in all cases; the dispatching
loop additionally yields `r` upward exactly when the dispatched tool
is a leaf (not an `Agent`) — a nested agent's response is not yielded
again by the loop, it having already been forwarded live by the
relay. -/
theorem C1_amended (A : Agent) (cont : List Msg → Exec) (ms : List Msg)
    (tc : ToolCall) (rest : List ToolCall) (tool : Tool) (d : Val)
    (drv : PyObj → Val) (evs : List PyObj) (r : PyObj)
    (h1 : ¬tc.function.name = "Response")
    (h2 : toolMap A.tools tc.function.name = some tool)
    (h3 : tool.parseRequest tc.function.arguments = Except.ok d)
    (h4 : trace (tool.run ⟨tool.requestCls, d⟩) drv = (evs, Outcome.ok r)) :
    (tool.isAgent = false →
      trace (runCalls A cont ms (tc :: rest)) drv =
        (⟨tool.requestCls, d⟩ :: (evs ++ r ::
            (trace (runCalls A cont (ms ++ [format_tool_response r tc.id]) rest) drv).1),
         (trace (runCalls A cont (ms ++ [format_tool_response r tc.id]) rest) drv).2)) ∧
    (tool.isAgent = true →
      trace (runCalls A cont ms (tc :: rest)) drv =
        (⟨tool.requestCls, d⟩ :: (evs ++
            (trace (runCalls A cont (ms ++ [format_tool_response r tc.id]) rest) drv).1),
         (trace (runCalls A cont (ms ++ [format_tool_response r tc.id]) rest) drv).2)) := by
  have hd := runCalls_dispatch A cont ms tc rest tool d drv evs r h1 h2 h3 h4
  constructor
  · intro hA
    rw [hd, hA]
    simp
  · intro hA
    rw [hd, hA]
    simp

/-- C1 witness: dispatching the leaf `Echo` in `echoAgent` yields the
parsed request, then the echoed response (the loop's extra yield for a
leaf), then the final `Response`; the transcript passed on contains
the tool-result for call id `c1`. -/
theorem C1_witness :
    trace (runCalls echoAgent (runLoop echoAgent 1) (initMessages echoAgent reqW)
        [⟨"c1", ⟨"Echo", "argsE"⟩⟩]) drvNull =
      ([⟨"Echo.Request", Val.obj [("text", Val.str "hi")]⟩,
        ⟨"Echo.Response", Val.obj [("text", Val.str "hi")]⟩,
        ⟨"Response", Val.obj []⟩],
       Outcome.ok ⟨"Response", Val.obj []⟩) :=
  (C1_amended echoAgent (runLoop echoAgent 1) (initMessages echoAgent reqW)
    ⟨"c1", ⟨"Echo", "argsE"⟩⟩ [] echoTool (Val.obj [("text", Val.str "hi")]) drvNull
    [] ⟨"Echo.Response", Val.obj [("text", Val.str "hi")]⟩
    (by decide) rfl rfl rfl).1 rfl

/-- C2 counterexample: `emptyReplyAgent` has `max_iter = 1`; its first
reply names zero tool calls, and its model oracle would answer the
very next round-trip with a parsable `Response` call (third and fourth
conjuncts).  Yet the run raises the exhaustion exception without ever
performing a dispatch round (first conjunct): the recovery round for
the empty reply consumed the single loop iteration, so after k = 1
empty replies the agent could not still perform `max_iter = 1`
dispatch rounds, contradicting the claim. -/
theorem C2_counterexample :
    trace (emptyReplyAgent.run reqW) drvNull = ([], Outcome.err PyErr.exception) ∧
    emptyReplyAgent.max_iter = 1 ∧
    (emptyReplyAgent.llm (initMessages emptyReplyAgent reqW ++
        [Msg.assistant ⟨none, []⟩] ++
        [format_user_response mustRespondMessage])).tool_calls =
      [⟨"c2", ⟨"Response", "ok"⟩⟩] ∧
    emptyReplyAgent.parseResponse "ok" = Except.ok Val.null :=
  ⟨rfl, rfl, rfl, rfl⟩

/-- C2 (amended): a model reply naming zero tool calls appends the
synthetic must-respond user message (after the reply itself) and
re-enters the model-call loop, but this recovery round does count
against the `max_iter` bound: it consumes one unit of the remaining
iteration budget (and one model call), so after k empty replies at
most `max_iter - k` dispatch rounds remain. -/
theorem C2_amended (A : Agent) (fuel : Nat) (ms : List Msg) (drv : PyObj → Val)
    (h : (A.llm ms).tool_calls = []) :
    runLoop A (fuel + 1) ms =
      runLoop A fuel (ms ++ [Msg.assistant (A.llm ms)] ++
        [format_user_response mustRespondMessage]) ∧
    loopLLMCount A drv (fuel + 1) ms =
      1 + loopLLMCount A drv fuel (ms ++ [Msg.assistant (A.llm ms)] ++
        [format_user_response mustRespondMessage]) := by
  constructor
  · simp [runLoop, h]
  · simp [loopLLMCount, h]

/-- C2 witness: the empty first reply of `emptyReplyAgent` appends the
must-respond message and re-enters the loop with the iteration budget
decreased from 1 to 0. -/
theorem C2_witness :
    runLoop emptyReplyAgent 1 (initMessages emptyReplyAgent reqW) =
      runLoop emptyReplyAgent 0 (initMessages emptyReplyAgent reqW ++
        [Msg.assistant (emptyReplyAgent.llm (initMessages emptyReplyAgent reqW))] ++
        [format_user_response mustRespondMessage]) ∧
    loopLLMCount emptyReplyAgent drvNull 1 (initMessages emptyReplyAgent reqW) =
      1 + loopLLMCount emptyReplyAgent drvNull 0 (initMessages emptyReplyAgent reqW ++
        [Msg.assistant (emptyReplyAgent.llm (initMessages emptyReplyAgent reqW))] ++
        [format_user_response mustRespondMessage]) :=
  C2_amended emptyReplyAgent 0 (initMessages emptyReplyAgent reqW) drvNull rfl

/-- C4: an agent run makes at most `max_iter` model calls (one per
iteration of the model-call/dispatch loop), and when no tool call
named `Response` occurring in any reply the model oracle can produce
parses successfully, the run never returns normally — by totality of
the embedding it therefore ends in a raised exception (exhaustion or
`KeyError`) within the bound. -/
theorem C4_bounded_iteration (A : Agent) (request : PyObj) (drv : PyObj → Val)
    (hno : ∀ ms tc, tc ∈ (A.llm ms).tool_calls → tc.function.name = "Response" →
      ∀ d, A.parseResponse tc.function.arguments ≠ Except.ok d) :
    loopLLMCount A drv A.max_iter (initMessages A request) ≤ A.max_iter ∧
    (∀ r, (trace (A.run request) drv).2 ≠ Outcome.ok r) ∧
    (∃ e, (trace (A.run request) drv).2 = Outcome.err e) := by
  have hnotok : ∀ r, (trace (A.run request) drv).2 ≠ Outcome.ok r := by
    intro r hok
    obtain ⟨tc, d, ⟨ms', htc⟩, hname, hp, hr⟩ :=
      runLoop_ok_parsed A drv A.max_iter (initMessages A request)
        (trace (A.run request) drv).1 r (by rw [← hok]; exact Prod.mk.eta.symm)
    exact hno ms' tc htc hname d hp
  refine ⟨loopLLMCount_le A drv A.max_iter _, hnotok, ?_⟩
  rcases hout : (trace (A.run request) drv).2 with r | e
  · exact absurd hout (hnotok r)
  · exact ⟨e, rfl⟩

/-- C4 witness: `noResponseAgent` (whose replies never contain any
tool call) makes at most its `max_iter` model calls and its run does
not return normally, ending in an error outcome. -/
theorem C4_witness :
    loopLLMCount noResponseAgent drvNull noResponseAgent.max_iter
        (initMessages noResponseAgent reqW) ≤ noResponseAgent.max_iter ∧
    (trace (noResponseAgent.run reqW) drvNull).2 ≠
      Outcome.ok ⟨"Response", Val.null⟩ ∧
    (∃ e, (trace (noResponseAgent.run reqW) drvNull).2 = Outcome.err e) := by
  have h := C4_bounded_iteration noResponseAgent reqW drvNull
    (fun ms tc htc => by simp [noResponseAgent] at htc)
  exact ⟨h.1, h.2.1 ⟨"Response", Val.null⟩, h.2.2⟩

/-- C7: nested dispatch is a transparent, order-preserving relay.
First conjunct: when the dispatched entity is an agent whose execution
yields `e1` then `e2` before returning `r`, the driver observes the
parsed request, then `e1`, then `e2`, in that order, before any later
event of the dispatching agent (the continuation's events).  Second
conjunct: in general, relaying any execution reproduces exactly that
execution's events, in order, answered by the very same driver (so
each resumption value passes through unchanged), before the
dispatching agent continues — with an inner exception propagating. -/
theorem C7_relay_order (A : Agent) (cont : List Msg → Exec) (ms : List Msg)
    (tc : ToolCall) (rest : List ToolCall) (tool : Tool) (d : Val)
    (drv : PyObj → Val) (e1 e2 r : PyObj)
    (h1 : ¬tc.function.name = "Response")
    (h2 : toolMap A.tools tc.function.name = some tool)
    (h3 : tool.parseRequest tc.function.arguments = Except.ok d)
    (hAgent : tool.isAgent = true)
    (h4 : trace (tool.run ⟨tool.requestCls, d⟩) drv = ([e1, e2], Outcome.ok r)) :
    (trace (runCalls A cont ms (tc :: rest)) drv).1 =
      ⟨tool.requestCls, d⟩ :: e1 :: e2 ::
        (trace (runCalls A cont (ms ++ [format_tool_response r tc.id]) rest) drv).1 ∧
    ∀ (t : Exec) (k : PyObj → Exec),
      trace (relay t k) drv =
        match trace t drv with
        | (ievs, Outcome.ok ir) => (ievs ++ (trace (k ir) drv).1, (trace (k ir) drv).2)
        | (ievs, Outcome.err e) => (ievs, Outcome.err e) := by
  constructor
  · rw [runCalls_dispatch A cont ms tc rest tool d drv [e1, e2] r h1 h2 h3 h4]
    simp [hAgent]
  · intro t k
    exact trace_relay t k drv

/-- C7 witness: dispatching the nested agent `B` in `outerAgent`, the
driver observes the parsed `B.Request`, then `B`'s two events in
order, before the dispatching agent's own subsequent event. -/
theorem C7_witness :
    (trace (runCalls outerAgent (runLoop outerAgent 1) (initMessages outerAgent reqW)
        [⟨"cb", ⟨"B", "argsB"⟩⟩]) drvNull).1 =
      ⟨"B.Request", Val.null⟩ :: eB1 :: rB ::
        (trace (runCalls outerAgent (runLoop outerAgent 1)
          (initMessages outerAgent reqW ++ [format_tool_response rB "cb"]) []) drvNull).1 :=
  (C7_relay_order outerAgent (runLoop outerAgent 1) (initMessages outerAgent reqW)
    ⟨"cb", ⟨"B", "argsB"⟩⟩ [] subAgentTool Val.null drvNull eB1 rB rB
    (by decide) rfl rfl rfl rfl).1

/-- C8: dispatch fidelity.  A tool call naming a registered tool whose
arguments parse to `d` invokes that tool's `run` on the request built
from exactly the parsed arguments (the dispatched execution in the
last conjunct is `tool.run ⟨tool.requestCls, d⟩`, whose events `evs`
appear in the run); when it completes, the terminal response is
recorded in the transcript handed to the rest of the loop as a message
with role `tool`, `tool_call_id` equal to the originating call's id,
and content the JSON encoding of the response. -/
theorem C8_dispatch_fidelity (A : Agent) (cont : List Msg → Exec) (ms : List Msg)
    (tc : ToolCall) (rest : List ToolCall) (tool : Tool) (d : Val)
    (drv : PyObj → Val) (evs : List PyObj) (r : PyObj)
    (h1 : ¬tc.function.name = "Response")
    (h2 : toolMap A.tools tc.function.name = some tool)
    (h3 : tool.parseRequest tc.function.arguments = Except.ok d)
    (h4 : trace (tool.run ⟨tool.requestCls, d⟩) drv = (evs, Outcome.ok r)) :
    format_tool_response r tc.id = Msg.tool (jsonDumps r.data) tc.id ∧
    (format_tool_response r tc.id).role = "tool" ∧
    (format_tool_response r tc.id).tool_call_id = some tc.id ∧
    (format_tool_response r tc.id).content = some (jsonDumps r.data) ∧
    trace (runCalls A cont ms (tc :: rest)) drv =
      (⟨tool.requestCls, d⟩ ::
        (evs ++ (if tool.isAgent then [] else [r]) ++
          (trace (runCalls A cont (ms ++ [format_tool_response r tc.id]) rest) drv).1),
       (trace (runCalls A cont (ms ++ [format_tool_response r tc.id]) rest) drv).2) :=
  ⟨rfl, rfl, rfl, rfl, runCalls_dispatch A cont ms tc rest tool d drv evs r h1 h2 h3 h4⟩

/-- C8 witness: dispatching `Echo` on parsed arguments
`{text: "hi"}` records the echoed response as a role-`tool` message
for call id `c8` with JSON-encoded content, and runs `Echo` on exactly
the parsed request. -/
theorem C8_witness :
    format_tool_response ⟨"Echo.Response", Val.obj [("text", Val.str "hi")]⟩ "c8" =
      Msg.tool (jsonDumps (Val.obj [("text", Val.str "hi")])) "c8" ∧
    (format_tool_response ⟨"Echo.Response", Val.obj [("text", Val.str "hi")]⟩ "c8").role =
      "tool" ∧
    (format_tool_response ⟨"Echo.Response",
        Val.obj [("text", Val.str "hi")]⟩ "c8").tool_call_id = some "c8" ∧
    (format_tool_response ⟨"Echo.Response",
        Val.obj [("text", Val.str "hi")]⟩ "c8").content =
      some (jsonDumps (Val.obj [("text", Val.str "hi")])) ∧
    trace (runCalls echoAgent (runLoop echoAgent 1) (initMessages echoAgent reqW)
        [⟨"c8", ⟨"Echo", "argsE"⟩⟩]) drvNull =
      (⟨"Echo.Request", Val.obj [("text", Val.str "hi")]⟩ ::
        ([] ++ (if echoTool.isAgent then [] else
            [⟨"Echo.Response", Val.obj [("text", Val.str "hi")]⟩]) ++
          (trace (runCalls echoAgent (runLoop echoAgent 1)
            (initMessages echoAgent reqW ++
              [format_tool_response ⟨"Echo.Response",
                Val.obj [("text", Val.str "hi")]⟩ "c8"]) []) drvNull).1),
       (trace (runCalls echoAgent (runLoop echoAgent 1)
          (initMessages echoAgent reqW ++
            [format_tool_response ⟨"Echo.Response",
              Val.obj [("text", Val.str "hi")]⟩ "c8"]) []) drvNull).2) :=
  C8_dispatch_fidelity echoAgent (runLoop echoAgent 1) (initMessages echoAgent reqW)
    ⟨"c8", ⟨"Echo", "argsE"⟩⟩ [] echoTool (Val.obj [("text", Val.str "hi")]) drvNull
    [] ⟨"Echo.Response", Val.obj [("text", Val.str "hi")]⟩ (by decide) rfl rfl rfl

/-- C9: the `Ask` tool's execution yields exactly one event — an
`AskQuestion` carrying the request's question — and returns a response
whose `response` field is exactly the resumption value the driver
supplied for that event. -/
theorem C9_ask_round_trip (q : String) (drv : PyObj → Val) :
    trace (Ask.run ⟨"Ask.Request", Val.obj [("question", Val.str q)]⟩) drv =
      ([⟨"AskQuestion", Val.obj [("question", Val.str q)]⟩],
       Outcome.ok ⟨"Ask.Response",
         Val.obj [("response",
           drv ⟨"AskQuestion", Val.obj [("question", Val.str q)]⟩)]⟩) :=
  rfl

/-- C10: exactly-once surfacing of a dispatched call's terminal
response.  First conjunct: the events the dispatch itself contributes
after the request event — the relayed inner events plus the loop's
extra yield for a leaf — contain the terminal response exactly once,
given that the inner execution itself surfaced it exactly once when
the target is an agent and not at all when it is a leaf.  Second
conjunct: every embedded agent run that returns normally yields its
own response as its final event (so the relay forwards it, justifying
the agent-side hypothesis).  Third conjunct: where those events sit in
the dispatching run's full trace. -/
theorem C10_exactly_once (A : Agent) (cont : List Msg → Exec) (ms : List Msg)
    (tc : ToolCall) (rest : List ToolCall) (tool : Tool) (d : Val)
    (drv : PyObj → Val) (evs : List PyObj) (r : PyObj)
    (h1 : ¬tc.function.name = "Response")
    (h2 : toolMap A.tools tc.function.name = some tool)
    (h3 : tool.parseRequest tc.function.arguments = Except.ok d)
    (h4 : trace (tool.run ⟨tool.requestCls, d⟩) drv = (evs, Outcome.ok r))
    (h5 : if tool.isAgent then ExactlyOnce r evs else r ∉ evs) :
    ExactlyOnce r (evs ++ (if tool.isAgent then [] else [r])) ∧
    (∀ (B : Agent) (fuelB : Nat) (msB : List Msg) (evsB : List PyObj) (rB : PyObj),
      trace (runLoop B fuelB msB) drv = (evsB, Outcome.ok rB) →
      evsB.getLast? = some rB) ∧
    trace (runCalls A cont ms (tc :: rest)) drv =
      (⟨tool.requestCls, d⟩ ::
        (evs ++ (if tool.isAgent then [] else [r]) ++
          (trace (runCalls A cont (ms ++ [format_tool_response r tc.id]) rest) drv).1),
       (trace (runCalls A cont (ms ++ [format_tool_response r tc.id]) rest) drv).2) := by
  refine ⟨?_, fun B fuelB msB evsB rB hB => runLoop_ok_getLast B drv fuelB msB evsB rB hB,
    runCalls_dispatch A cont ms tc rest tool d drv evs r h1 h2 h3 h4⟩
  cases hA : tool.isAgent
  · rw [hA] at h5
    simp at h5 ⊢
    exact ⟨evs, [], rfl, h5, by simp⟩
  · rw [hA] at h5
    simp at h5 ⊢
    exact h5

/-- C10 witness: dispatching the nested agent `B` (which yields `eB1`
then its own response `rB` and returns `rB`), the dispatch's event
segment surfaces `rB` exactly once; the loop adds no extra yield. -/
theorem C10_witness :
    ExactlyOnce rB ([eB1, rB] ++ []) ∧
    trace (runCalls outerAgent (runLoop outerAgent 1) (initMessages outerAgent reqW)
        [⟨"cb2", ⟨"B", "argsB"⟩⟩]) drvNull =
      (⟨"B.Request", Val.null⟩ ::
        ([eB1, rB] ++ [] ++
          (trace (runCalls outerAgent (runLoop outerAgent 1)
            (initMessages outerAgent reqW ++ [format_tool_response rB "cb2"]) []) drvNull).1),
       (trace (runCalls outerAgent (runLoop outerAgent 1)
          (initMessages outerAgent reqW ++ [format_tool_response rB "cb2"]) []) drvNull).2) := by
  have h := C10_exactly_once outerAgent (runLoop outerAgent 1) (initMessages outerAgent reqW)
    ⟨"cb2", ⟨"B", "argsB"⟩⟩ [] subAgentTool Val.null drvNull [eB1, rB] rB
    (by decide) rfl rfl rfl
    (⟨[eB1], [], rfl, by simp [eB1, rB], by simp⟩)
  exact ⟨h.1, h.2.2⟩

end Autodeploy
